import Mathlib

/-!
Verification development for the guile2-xlib foreign-resource lifecycle
manager (src/xlib.c).

The C source wraps Xlib resources in Guile smobs.  We model the Guile heap
shallowly: a `World` holds a list of smobs (a heap indexed by `Nat`
references, standing for SCM pointers), the process-wide `resource_id_hash`
table, and a trace of the native Xlib calls issued so far (in order).  Each
C primitive becomes a function from a `World` to a result together with the
updated `World`; a raised Scheme error becomes an `Except.error` value, and
the world returned alongside it reflects the mutations made before the
error was raised (C errors are longjmps, not transactions).

Native Xlib calls whose results matter (XOpenDisplay, XCreateWindow,
ScreenCount, DefaultGC, ...) are modelled by oracle parameters or by a
`NativeEnv` record, since the X server is outside the program.
-/

namespace Guile2Xlib

/-! ## State constants, verbatim from xlib.c -/

def XDISPLAY_STATE_OPEN : Nat := 1
def XDISPLAY_STATE_CLOSED : Nat := 2
def XDISPLAY_STATE_ANY : Nat := XDISPLAY_STATE_OPEN ||| XDISPLAY_STATE_CLOSED

def XWINDOW_STATE_UNMAPPED : Nat := 1
def XWINDOW_STATE_MAPPED : Nat := 2
def XWINDOW_STATE_DESTROYED : Nat := 4
def XWINDOW_STATE_THIRD_PARTY : Nat := 8
def XWINDOW_STATE_PIXMAP : Nat := 16

def XGC_STATE_DEFAULT : Nat := 1
def XGC_STATE_CREATED : Nat := 2
def XGC_STATE_FREED : Nat := 4

/-- C bitwise complement `~m` of an `int` mask, restricted to 32 bits:
the state masks passed to the validators only ever meet state values
far below `2^32`, so this matches the C `state & ~m` test. -/
def cNot (m : Nat) : Nat := 4294967295 ^^^ m

/-! ## SCM values and smobs -/

/-- A Scheme value as far as this interface is concerned: the immediates
the code manipulates, plus references into the smob heap. -/
inductive SCMv where
  | boolF
  | boolT
  | unspecified
  | int (n : Int)
  | str (s : String)
  | obj (r : Nat)
deriving DecidableEq, Repr

/-- `xdisplay_t`: native `Display *` handle, open/closed state, and the
cached default-GC smob (`SCM_BOOL_F` until `x-default-gc` first runs). -/
structure xdisplay_t where
  dsp : Nat
  state : Nat
  gc : SCMv
deriving DecidableEq, Repr

/-- `xwindow_t`: the display smob reference, the native `Window` id, and
the mapped/unmapped/destroyed/third-party/pixmap state. -/
structure xwindow_t where
  dsp : SCMv
  win : Nat
  state : Nat
deriving DecidableEq, Repr

/-- `xgc_t`: the display smob reference, the native `GC` id, and the
default/created/freed state. -/
structure xgc_t where
  dsp : SCMv
  gc : Nat
  state : Nat
deriving DecidableEq, Repr

/-- A heap cell: one of the four smob kinds, or a cell the garbage
collector has already swept in this cycle (`SCM_TYP16` = free cell). -/
inductive Smob where
  | xdisplay (d : xdisplay_t)
  | xscreen (dsp : SCMv) (scr : Nat)
  | xwindow (w : xwindow_t)
  | xgc (g : xgc_t)
  | freeCell
deriving DecidableEq, Repr

/-- The native Xlib calls the modelled primitives issue, in trace order.
`freePixmap` is included so that the pixmap-release claim can be stated,
although the source never issues it. -/
inductive NativeCall where
  | openDisplay
  | closeDisplay (d : Nat)
  | createWindow (d : Nat)
  | destroyWindow (d : Nat) (win : Nat)
  | mapWindow (d : Nat) (win : Nat)
  | unmapWindow (d : Nat) (win : Nat)
  | createPixmap (d : Nat)
  | freePixmap (d : Nat) (pix : Nat)
  | freeGC (d : Nat) (g : Nat)
  | copyArea (d : Nat) (src : Nat) (dst : Nat) (g : Nat)
deriving DecidableEq, Repr

/-- A raised Scheme error: `wrongType`/`badArg`/`outOfRange` stand for
`scm_wrong_type_arg` / failed `SCM_ASSERT` / `SCM_ASSERT_RANGE`;
`miscError` carries the `scm_misc_error` format string, which is what
classifies a state error. -/
inductive XErr where
  | wrongType (pos : Nat)
  | badArg (pos : Nat)
  | outOfRange (pos : Nat)
  | miscError (msg : String)
deriving DecidableEq, Repr

/-- The modelled process state: the smob heap (indices are SCM pointers),
the process-wide weak `resource_id_hash` (modelled as an association list
from native resource id to SCM value), and the trace of native calls. -/
structure World where
  heap : List Smob
  resource_id_hash : List (Nat × SCMv)
  calls : List NativeCall
deriving DecidableEq, Repr

/-- Oracle for the native server-side queries used by `valid_scr` and
`x-default-gc`: `ScreenCount`, `DefaultScreen` and `DefaultGC`. -/
structure NativeEnv where
  screenCount : Int
  defaultScreen : Nat
  defaultGC : Nat → Nat

/-! ## Small helpers over the world -/

def setHeap (w : World) (r : Nat) (s : Smob) : World :=
  { w with heap := w.heap.set r s }

def addCall (w : World) (c : NativeCall) : World :=
  { w with calls := w.calls ++ [c] }

/-- `SCM_TYP16 (v) == scm_tc16_xdisplay`: is `v` a (non-swept) display smob? -/
def isDisplaySmob (w : World) (v : SCMv) : Bool :=
  match v with
  | .obj r =>
    match w.heap[r]? with
    | some (.xdisplay _) => true
    | _ => false
  | _ => false

/-- `SCM_TYP16 (v) == scm_tc16_xwindow`. -/
def isWindowSmob (w : World) (v : SCMv) : Bool :=
  match v with
  | .obj r =>
    match w.heap[r]? with
    | some (.xwindow _) => true
    | _ => false
  | _ => false

/-- `scm_hashq_ref (h, k, SCM_BOOL_F)` on the modelled table, without the
default (the caller supplies it). -/
def hashq_ref (h : List (Nat × SCMv)) (k : Nat) : Option SCMv :=
  (h.find? (fun p => p.1 == k)).map (fun p => p.2)

/-- `scm_hashq_set_x (h, k, v)`: replace the binding for `k`, or add one. -/
def hashq_set (h : List (Nat × SCMv)) (k : Nat) (v : SCMv) : List (Nat × SCMv) :=
  match h with
  | [] => [(k, v)]
  | p :: rest => if p.1 == k then (k, v) :: rest else p :: hashq_set rest k v

/-- `SCM_VALIDATE_INT_COPY`. -/
def validate_int (v : SCMv) (pos : Nat) : Except XErr Int :=
  match v with
  | .int n => .ok n
  | _ => .error (.wrongType pos)

/-- `SCM_VALIDATE_UINT_COPY`. -/
def validate_uint (v : SCMv) (pos : Nat) : Except XErr Int :=
  match v with
  | .int n => if 0 ≤ n then .ok n else .error (.outOfRange pos)
  | _ => .error (.wrongType pos)

/-! ## Validators (xlib.c `valid_dsp`, `valid_scr`, `valid_win`, `valid_gc`) -/

/-- `valid_dsp`: accepts a display smob or any smob containing a display
reference (screen, window, gc), checks the display's state against the
`expected` mask, and returns the display reference (modelled as heap
index paired with the record found there).  On a state mismatch the error
is the `scm_misc_error` the source raises. -/
def valid_dsp (w : World) (arg : SCMv) (pos : Nat) (expected : Nat) :
    Except XErr (Nat × xdisplay_t) :=
  match arg with
  | .obj r0 =>
    let arg1 : SCMv :=
      match w.heap[r0]? with
      | some (.xscreen d _) => d
      | some (.xwindow win) => win.dsp
      | some (.xgc g) => g.dsp
      | _ => .obj r0
    match arg1 with
    | .obj r1 =>
      match w.heap[r1]? with
      | some (.xdisplay dsp) =>
        if dsp.state &&& expected ≠ 0 then .ok (r1, dsp)
        else if expected = XDISPLAY_STATE_OPEN then
          .error (.miscError "Display ~S has been closed")
        else
          .error (.miscError "Corrupt display state (~S)")
      | _ => .error (.wrongType pos)
    | _ => .error (.wrongType pos)
  | _ => .error (.badArg pos)

/-- The classified message `valid_win` raises, keyed by the window's
actual state. -/
def xwindow_err_msg (state : Nat) : String :=
  if state = XWINDOW_STATE_UNMAPPED then "Window ~S is already unmapped"
  else if state = XWINDOW_STATE_MAPPED then "Window ~S is already mapped"
  else if state = XWINDOW_STATE_DESTROYED then "Window ~S has been destroyed"
  else if state = XWINDOW_STATE_THIRD_PARTY then "Window ~S belongs to a third party"
  else if state = XWINDOW_STATE_PIXMAP then "Window ~S is a pixmap"
  else "Corrupt window state (~S)"

/-- `valid_win`: requires a window smob whose state meets `expected`,
else raises the error classified by the actual state. -/
def valid_win (w : World) (arg : SCMv) (pos : Nat) (expected : Nat) :
    Except XErr (Nat × xwindow_t) :=
  match arg with
  | .obj r =>
    match w.heap[r]? with
    | some (.xwindow win) =>
      if win.state &&& expected ≠ 0 then .ok (r, win)
      else .error (.miscError (xwindow_err_msg win.state))
    | _ => .error (.wrongType pos)
  | _ => .error (.badArg pos)

/-- The classified message `valid_gc` raises, keyed by the GC's actual
state. -/
def xgc_err_msg (state : Nat) : String :=
  if state = XGC_STATE_DEFAULT then "GC ~S is the default GC"
  else if state = XGC_STATE_CREATED then "GC ~S is a created GC"
  else if state = XGC_STATE_FREED then "GC ~S has been freed"
  else "Corrupt GC state (~S)"

/-- `valid_gc`: requires a gc smob whose state meets `expected`, else
raises the error classified by the actual state. -/
def valid_gc (w : World) (arg : SCMv) (pos : Nat) (expected : Nat) :
    Except XErr (Nat × xgc_t) :=
  match arg with
  | .obj r =>
    match w.heap[r]? with
    | some (.xgc g) =>
      if g.state &&& expected ≠ 0 then .ok (r, g)
      else .error (.miscError (xgc_err_msg g.state))
    | _ => .error (.wrongType pos)
  | _ => .error (.badArg pos)

/-- `valid_scr`: a screen smob supplies its own number; an explicit
screen argument must be an integer (the source's `SCM_ASSERT
(scm_to_int (screen), ...)` rejects the value 0) within
`[0, ScreenCount)`; an omitted argument means `DefaultScreen`. -/
def valid_scr (env : NativeEnv) (w : World) (display : SCMv)
    (screen : Option SCMv) (pos : Nat) : Except XErr Nat :=
  match display with
  | .obj r =>
    match w.heap[r]? with
    | some (.xscreen _ scr) => .ok scr
    | _ =>
      match screen with
      | some s =>
        match s with
        | .int n =>
          if n = 0 then .error (.badArg pos)
          else if 0 ≤ n ∧ n < env.screenCount then .ok n.toNat
          else .error (.outOfRange 2)
        | _ => .error (.wrongType pos)
      | none => .ok env.defaultScreen
  | _ =>
    match screen with
    | some s =>
      match s with
      | .int n =>
        if n = 0 then .error (.badArg pos)
        else if 0 ≤ n ∧ n < env.screenCount then .ok n.toNat
        else .error (.outOfRange 2)
      | _ => .error (.wrongType pos)
    | none => .ok env.defaultScreen

/-! ## Display primitives -/

/-- Body of `scm_x_open_display_x` after the host argument check.
`openResult` is the oracle for the native `XOpenDisplay` call: `none`
models a NULL return.  On failure the freshly allocated wrapper is freed
again (the heap and table are unchanged); on success a new display smob
in Open state with no cached default GC is returned. -/
def scm_x_open_display_core (openResult : Option Nat) (w : World) :
    Except XErr SCMv × World :=
  let w1 := addCall w .openDisplay
  match openResult with
  | none => (.error (.miscError "Failed to open X display on ~S"), w1)
  | some h =>
    (.ok (.obj w1.heap.length),
      { w1 with heap := w1.heap ++ [.xdisplay ⟨h, XDISPLAY_STATE_OPEN, .boolF⟩] })

/-- `scm_x_open_display_x` (`x-open-display!`): the optional host must be
a string. -/
def scm_x_open_display_x (host : Option SCMv) (openResult : Option Nat)
    (w : World) : Except XErr SCMv × World :=
  match host with
  | some h =>
    match h with
    | .str _ => scm_x_open_display_core openResult w
    | _ => (.error (.badArg 1), w)
  | none => scm_x_open_display_core openResult w

/-- `scm_x_close_display_x` (`x-close-display!`): requires Open, sets the
state to Closed and then issues the native `XCloseDisplay`. -/
def scm_x_close_display_x (display : SCMv) (w : World) :
    Except XErr SCMv × World :=
  match valid_dsp w display 1 XDISPLAY_STATE_OPEN with
  | .error e => (.error e, w)
  | .ok (r, dsp) =>
    (.ok .unspecified,
      addCall (setHeap w r (.xdisplay { dsp with state := XDISPLAY_STATE_CLOSED }))
        (.closeDisplay dsp.dsp))

/-- `xdisplay_free`, the smob free hook for displays: close the display
first if it is still Open. -/
def xdisplay_free (display : SCMv) (w : World) : World :=
  match display with
  | .obj r =>
    match w.heap[r]? with
    | some (.xdisplay dsp) =>
      if dsp.state = XDISPLAY_STATE_OPEN then (scm_x_close_display_x display w).2
      else w
    | _ => w
  | _ => w

/-- `xdisplay_mark`, the smob mark hook for displays: marks (keeps
reachable) the cached default GC. -/
def xdisplay_mark (display : SCMv) (w : World) : SCMv :=
  match display with
  | .obj r =>
    match w.heap[r]? with
    | some (.xdisplay dsp) => dsp.gc
    | _ => .boolF
  | _ => .boolF

/-! ## Window and pixmap primitives -/

/-- `scm_x_create_window_x` (`x-create-window!`): requires an Open
display; `createResult` is the oracle for the native `XCreateWindow`
call (0 models failure).  On success the new Unmapped window smob is
registered in `resource_id_hash` under its native id. -/
def scm_x_create_window_x (display : SCMv) (createResult : Nat) (w : World) :
    Except XErr SCMv × World :=
  match valid_dsp w display 1 XDISPLAY_STATE_OPEN with
  | .error e => (.error e, w)
  | .ok (r, dsp) =>
    let w1 := addCall w (.createWindow dsp.dsp)
    if createResult = 0 then
      (.error (.miscError "Failed to create X window on ~S"), w1)
    else
      let wref := w1.heap.length
      (.ok (.obj wref),
        { w1 with
          heap := w1.heap ++ [.xwindow ⟨.obj r, createResult, XWINDOW_STATE_UNMAPPED⟩],
          resource_id_hash := hashq_set w1.resource_id_hash createResult (.obj wref) })

/-- `scm_x_map_window_x` (`x-map-window!`): requires an Open display and
an Unmapped window; sets the state to Mapped, then issues `XMapWindow`. -/
def scm_x_map_window_x (window : SCMv) (w : World) : Except XErr SCMv × World :=
  match valid_dsp w window 1 XDISPLAY_STATE_OPEN with
  | .error e => (.error e, w)
  | .ok (_, dsp) =>
    match valid_win w window 1 XWINDOW_STATE_UNMAPPED with
    | .error e => (.error e, w)
    | .ok (r, win) =>
      (.ok .unspecified,
        addCall (setHeap w r (.xwindow { win with state := XWINDOW_STATE_MAPPED }))
          (.mapWindow dsp.dsp win.win))

/-- `scm_x_unmap_window_x` (`x-unmap-window!`): requires an Open display
and a Mapped window; sets the state to Unmapped, then issues
`XUnmapWindow`. -/
def scm_x_unmap_window_x (window : SCMv) (w : World) : Except XErr SCMv × World :=
  match valid_dsp w window 1 XDISPLAY_STATE_OPEN with
  | .error e => (.error e, w)
  | .ok (_, dsp) =>
    match valid_win w window 1 XWINDOW_STATE_MAPPED with
    | .error e => (.error e, w)
    | .ok (r, win) =>
      (.ok .unspecified,
        addCall (setHeap w r (.xwindow { win with state := XWINDOW_STATE_UNMAPPED }))
          (.unmapWindow dsp.dsp win.win))

/-- `scm_x_destroy_window_x` (`x-destroy-window!`): requires an Open
display and a window that is not Destroyed, ThirdParty or Pixmap; sets
the state to Destroyed, then issues `XDestroyWindow`. -/
def scm_x_destroy_window_x (window : SCMv) (w : World) : Except XErr SCMv × World :=
  match valid_dsp w window 1 XDISPLAY_STATE_OPEN with
  | .error e => (.error e, w)
  | .ok (_, dsp) =>
    match valid_win w window 1
        (cNot (XWINDOW_STATE_DESTROYED ||| XWINDOW_STATE_THIRD_PARTY |||
          XWINDOW_STATE_PIXMAP)) with
    | .error e => (.error e, w)
    | .ok (r, win) =>
      (.ok .unspecified,
        addCall (setHeap w r (.xwindow { win with state := XWINDOW_STATE_DESTROYED }))
          (.destroyWindow dsp.dsp win.win))

/-- `xwindow_free`, the smob free hook for windows: destroy the window
first, but only if the display smob is still a valid display object
(`SCM_TYP16` check) and the window is neither Destroyed nor ThirdParty. -/
def xwindow_free (window : SCMv) (w : World) : World :=
  match window with
  | .obj r =>
    match w.heap[r]? with
    | some (.xwindow win) =>
      if isDisplaySmob w win.dsp ∧ win.state ≠ XWINDOW_STATE_DESTROYED ∧
          win.state ≠ XWINDOW_STATE_THIRD_PARTY then
        (scm_x_destroy_window_x window w).2
      else w
    | _ => w
  | _ => w

/-- `scm_x_create_pixmap_x` (`x-create-pixmap!`): requires an Open
display and a valid screen; `createResult` is the oracle for
`XCreatePixmap` (0 models failure).  The new smob wraps an `xwindow_t`
in Pixmap state and is registered in `resource_id_hash`. -/
def scm_x_create_pixmap_x (env : NativeEnv) (display : SCMv) (screen : SCMv)
    (width height depth : SCMv) (createResult : Nat) (w : World) :
    Except XErr SCMv × World :=
  match valid_dsp w display 1 XDISPLAY_STATE_OPEN with
  | .error e => (.error e, w)
  | .ok (r, dsp) =>
    match valid_scr env w display (some screen) 2 with
    | .error e => (.error e, w)
    | .ok _ =>
      match validate_int width 3 with
      | .error e => (.error e, w)
      | .ok _ =>
        match validate_int height 4 with
        | .error e => (.error e, w)
        | .ok _ =>
          match validate_int depth 5 with
          | .error e => (.error e, w)
          | .ok _ =>
            let w1 := addCall w (.createPixmap dsp.dsp)
            if createResult = 0 then
              (.error (.miscError "Failed to create X pixmap on ~S"), w1)
            else
              let pref := w1.heap.length
              (.ok (.obj pref),
                { w1 with
                  heap := w1.heap ++
                    [.xwindow ⟨.obj r, createResult, XWINDOW_STATE_PIXMAP⟩],
                  resource_id_hash :=
                    hashq_set w1.resource_id_hash createResult (.obj pref) })

/-- `XDISPLAY (v)`: unconditional smob-data dereference (only meaningful
when `v` really is a display smob; `x-copy-area!` uses it without a
`valid_dsp` check). -/
def XDISPLAY_deref (w : World) (v : SCMv) : Option xdisplay_t :=
  match v with
  | .obj r =>
    match w.heap[r]? with
    | some (.xdisplay dsp) => some dsp
    | _ => none
  | _ => none

/-- `scm_x_copy_area_x` (`x-copy-area!`): validates both drawables
(Mapped, Pixmap or ThirdParty) and the gc (Created or Default) and the
six coordinates, then issues `XCopyArea` on `XDISPLAY (src->dsp)->dsp`.
Note: the source performs no `valid_dsp` call here, so the display's
Open state is never checked. -/
def scm_x_copy_area_x (source destination gc : SCMv)
    (src_x src_y width height dst_x dst_y : SCMv) (w : World) :
    Except XErr SCMv × World :=
  match valid_win w source 1
      (XWINDOW_STATE_MAPPED ||| XWINDOW_STATE_PIXMAP ||| XWINDOW_STATE_THIRD_PARTY) with
  | .error e => (.error e, w)
  | .ok (_, src) =>
    match valid_win w destination 2
        (XWINDOW_STATE_MAPPED ||| XWINDOW_STATE_PIXMAP ||| XWINDOW_STATE_THIRD_PARTY) with
    | .error e => (.error e, w)
    | .ok (_, dst) =>
      match valid_gc w gc 3 (XGC_STATE_CREATED ||| XGC_STATE_DEFAULT) with
      | .error e => (.error e, w)
      | .ok (_, gc1) =>
        match validate_int src_x 4 with
        | .error e => (.error e, w)
        | .ok _ =>
          match validate_int src_y 5 with
          | .error e => (.error e, w)
          | .ok _ =>
            match validate_uint width 6 with
            | .error e => (.error e, w)
            | .ok _ =>
              match validate_uint height 7 with
              | .error e => (.error e, w)
              | .ok _ =>
                match validate_int dst_x 8 with
                | .error e => (.error e, w)
                | .ok _ =>
                  match validate_int dst_y 9 with
                  | .error e => (.error e, w)
                  | .ok _ =>
                    match XDISPLAY_deref w src.dsp with
                    | some dsp =>
                      (.ok .unspecified,
                        addCall w (.copyArea dsp.dsp src.win dst.win gc1.gc))
                    | none => (.error (.wrongType 1), w)

/-! ## GC primitives -/

/-- `scm_x_default_gc` (`x-default-gc`): requires an Open display and a
valid screen.  If the display has no cached default GC yet, a new gc
smob in Default state wrapping `DefaultGC (dsp, scr)` is created and
cached in the display's `gc` field; otherwise the cached smob is
returned unchanged. -/
def scm_x_default_gc (env : NativeEnv) (display : SCMv) (screen : Option SCMv)
    (w : World) : Except XErr SCMv × World :=
  match valid_dsp w display 1 XDISPLAY_STATE_OPEN with
  | .error e => (.error e, w)
  | .ok (r, dsp) =>
    match valid_scr env w display screen 2 with
    | .error e => (.error e, w)
    | .ok scr =>
      if dsp.gc = .boolF then
        let gref := w.heap.length
        let gsm : Smob := .xgc ⟨.obj r, env.defaultGC scr, XGC_STATE_DEFAULT⟩
        let dsm : Smob := .xdisplay { dsp with gc := .obj gref }
        (.ok (.obj gref), { w with heap := (w.heap ++ [gsm]).set r dsm })
      else (.ok dsp.gc, w)

/-- `scm_x_free_gc_x` (`x-free-gc!`): requires an Open display and a
Created gc; issues `XFreeGC`, then sets the state to Freed. -/
def scm_x_free_gc_x (gc : SCMv) (w : World) : Except XErr SCMv × World :=
  match valid_dsp w gc 1 XDISPLAY_STATE_OPEN with
  | .error e => (.error e, w)
  | .ok (_, dsp) =>
    match valid_gc w gc 1 XGC_STATE_CREATED with
    | .error e => (.error e, w)
    | .ok (r, g) =>
      (.ok .unspecified,
        addCall (setHeap w r (.xgc { g with state := XGC_STATE_FREED }))
          (.freeGC dsp.dsp g.gc))

/-- `xgc_free`, the smob free hook for gcs: free the gc first, but only
if the display smob is still a valid display object and the gc state is
Created. -/
def xgc_free (gc : SCMv) (w : World) : World :=
  match gc with
  | .obj r =>
    match w.heap[r]? with
    | some (.xgc g) =>
      if isDisplaySmob w g.dsp ∧ g.state = XGC_STATE_CREATED then
        (scm_x_free_gc_x gc w).2
      else w
    | _ => w
  | _ => w

/-! ## The resource identity table lookup (`lookup_window`) -/

/-- `lookup_window`: resolves a native id from event data.  `None` (0)
yields `SCM_BOOL_F`; a live window smob registered under the id is
returned as-is; otherwise a fresh ThirdParty window smob owned by
`display` is created, registered, and returned. -/
def lookup_window (display : SCMv) (id : Nat) (w : World) : SCMv × World :=
  if id = 0 then (.boolF, w)
  else
    let window := (hashq_ref w.resource_id_hash id).getD .boolF
    if window = .boolF ∨ isWindowSmob w window = false then
      let r := w.heap.length
      (.obj r,
        { w with
          heap := w.heap ++ [.xwindow ⟨display, id, XWINDOW_STATE_THIRD_PARTY⟩],
          resource_id_hash := hashq_set w.resource_id_hash id (.obj r) })
    else (window, w)

/-! ## The garbage collector's sweep

Guile's GC sweep visits unreachable smobs in an arbitrary order; for each
one it runs the smob free hook and then overwrites the cell (its
`SCM_TYP16` becomes the free-cell tag).  `sweep order w` models one
collection cycle that reclaims the cells listed in `order`, in that
order. -/

def setFree (w : World) (r : Nat) : World := setHeap w r .freeCell

/-- Free one heap cell: run the kind's free hook (screens have none),
then mark the cell as swept. -/
def freeSmob (w : World) (r : Nat) : World :=
  match w.heap[r]? with
  | some (.xdisplay _) => setFree (xdisplay_free (.obj r) w) r
  | some (.xwindow _) => setFree (xwindow_free (.obj r) w) r
  | some (.xgc _) => setFree (xgc_free (.obj r) w) r
  | some (.xscreen _ _) => setFree w r
  | _ => w

def sweep : List Nat → World → World
  | [], w => w
  | r :: rest, w => sweep rest (freeSmob w r)

end Guile2Xlib

namespace Guile2Xlib

/-! ## The teardown-ordering invariant

A native `XDestroyWindow` or `XFreeGC` on display handle `d` is a
*dependent release call*; the central temporal property is that no such
call ever appears in the trace after `XCloseDisplay` on `d`. -/

/-- Is `c` a native release call of a resource dependent on display
handle `d`? -/
def isDepCall (d : Nat) : NativeCall → Bool
  | .destroyWindow d2 _ => d == d2
  | .freeGC d2 _ => d == d2
  | _ => false

/-- No dependent release call on `d` occurs anywhere after
`closeDisplay d` in the trace. -/
def goodTrace (tr : List NativeCall) : Prop :=
  ∀ (i j d : Nat) (c : NativeCall), i < j →
    tr[i]? = some (NativeCall.closeDisplay d) → tr[j]? = some c →
    isDepCall d c = false

/-- The world invariant that carries the teardown-ordering property
through any interleaving of primitives and GC sweeps:
display states are well formed, native display handles identify at most
one display smob, any handle already closed in the trace has its smob in
Closed state, and the trace so far is good. -/
structure Inv (w : World) : Prop where
  states : ∀ (i : Nat) (di : xdisplay_t), w.heap[i]? = some (.xdisplay di) →
    di.state = XDISPLAY_STATE_OPEN ∨ di.state = XDISPLAY_STATE_CLOSED
  uniq : ∀ (i j : Nat) (di dj : xdisplay_t), w.heap[i]? = some (.xdisplay di) →
    w.heap[j]? = some (.xdisplay dj) → di.dsp = dj.dsp → i = j
  consistent : ∀ (d : Nat), NativeCall.closeDisplay d ∈ w.calls →
    ∀ (i : Nat) (di : xdisplay_t), w.heap[i]? = some (.xdisplay di) → di.dsp = d →
      di.state ≠ XDISPLAY_STATE_OPEN
  good : goodTrace w.calls

/-! ## Decidable sufficient checks for `Inv`, and concrete scenario data -/

/-- Bool check: a display smob's state is Open or Closed. -/
def displayStateOKb : Smob → Bool
  | .xdisplay di =>
    (di.state == XDISPLAY_STATE_OPEN) || (di.state == XDISPLAY_STATE_CLOSED)
  | _ => true

/-- The native display handle carried by a smob, if it is a display. -/
def handleOf : Smob → Option Nat
  | .xdisplay di => some di.dsp
  | _ => none

/-- Bool check: no two display smobs in the heap share a native handle. -/
def uniqHandlesb : List Smob → Bool
  | [] => true
  | s :: rest =>
    (match handleOf s with
     | some d => rest.all (fun s2 => handleOf s2 != some d)
     | none => true) && uniqHandlesb rest

/-- Argument shape accepted by `valid_scr` for an explicit or omitted
screen (the source rejects the literal screen number 0 through its
`SCM_ASSERT (scm_to_int (screen), ...)`). -/
def scrOK (env : NativeEnv) : Option SCMv → Prop
  | none => True
  | some (.int n) => n ≠ 0 ∧ 0 ≤ n ∧ n < env.screenCount
  | some _ => False

/-- Argument shape accepted by `x-open-display!` for the host. -/
def hostOK : Option SCMv → Prop
  | none => True
  | some (.str _) => True
  | some _ => False

/-- Native environment for the concrete scenarios: three screens,
`DefaultGC` distinct per screen. -/
def envC : NativeEnv := ⟨3, 0, fun s => 100 + s⟩

/- A reachable scenario for `x-copy-area!`: open a display (handle 7),
create window 42, map it, create pixmap 43, fetch the default GC of
screen 1, then close the display explicitly. -/

def xcaW1 : World := (scm_x_open_display_x none (some 7) ⟨[], [], []⟩).2
def xcaW2 : World := (scm_x_create_window_x (.obj 0) 42 xcaW1).2
def xcaW3 : World := (scm_x_map_window_x (.obj 1) xcaW2).2
def xcaW4 : World :=
  (scm_x_create_pixmap_x envC (.obj 0) (.int 1) (.int 8) (.int 8) (.int 24) 43 xcaW3).2
def xcaW5 : World := (scm_x_default_gc envC (.obj 0) (some (.int 1)) xcaW4).2
def xcaW6 : World := (scm_x_close_display_x (.obj 0) xcaW5).2

/-- A world holding one Open display (handle 7) and one Pixmap-state
drawable (native id 43) owned by it. -/
def pixW : World :=
  ⟨[.xdisplay ⟨7, XDISPLAY_STATE_OPEN, .boolF⟩,
    .xwindow ⟨.obj 0, 43, XWINDOW_STATE_PIXMAP⟩], [(43, .obj 1)], []⟩

/-- A world holding one Open display (handle 7), one Mapped window
(native id 42) and one Created gc (native id 5), with the window
registered in the identity table: the C1 witness scenario. -/
def sweepW : World :=
  ⟨[.xdisplay ⟨7, XDISPLAY_STATE_OPEN, .boolF⟩,
    .xwindow ⟨.obj 0, 42, XWINDOW_STATE_MAPPED⟩,
    .xgc ⟨.obj 0, 5, XGC_STATE_CREATED⟩], [(42, .obj 1)], []⟩

/-- A world for the identity-table witness: one Open display and one
Unmapped window with native id 42 registered in the table. -/
def lookW : World :=
  ⟨[.xdisplay ⟨7, XDISPLAY_STATE_OPEN, .boolF⟩,
    .xwindow ⟨.obj 0, 42, XWINDOW_STATE_UNMAPPED⟩], [(42, .obj 1)], []⟩

/-- A world holding one Open display and one of each gc state:
Created (id 5), Default (id 6), Freed (id 8). -/
def gcW : World :=
  ⟨[.xdisplay ⟨7, XDISPLAY_STATE_OPEN, .boolF⟩,
    .xgc ⟨.obj 0, 5, XGC_STATE_CREATED⟩,
    .xgc ⟨.obj 0, 6, XGC_STATE_DEFAULT⟩,
    .xgc ⟨.obj 0, 8, XGC_STATE_FREED⟩], [], []⟩

/-- A world holding just one Open display with no cached default GC. -/
def oneDspW : World := ⟨[.xdisplay ⟨7, XDISPLAY_STATE_OPEN, .boolF⟩], [], []⟩

/-- First `x-default-gc` call on `oneDspW`, for screen 1. -/
def oneDspW1 : World := (scm_x_default_gc envC (.obj 0) (some (.int 1)) oneDspW).2

lemma goodTrace_nil : goodTrace [] := by
  intro i j d c _ hi _
  simp at hi

lemma goodTrace_append {tr : List NativeCall} {c : NativeCall}
    (h : goodTrace tr)
    (hc : ∀ d : Nat, NativeCall.closeDisplay d ∈ tr → isDepCall d c = false) :
    goodTrace (tr ++ [c]) := by
  intro i j d c' hij hi hj
  have hjlen : j < tr.length + 1 := by
    have := (List.getElem?_eq_some.mp hj).1
    simpa using this
  by_cases hjc : j < tr.length
  · have hilt : i < tr.length := lt_trans hij hjc
    rw [List.getElem?_append, if_pos hilt] at hi
    rw [List.getElem?_append, if_pos hjc] at hj
    exact h i j d c' hij hi hj
  · have hjeq : j = tr.length := by omega
    rw [List.getElem?_append, if_neg hjc, hjeq] at hj
    simp at hj
    have hilt : i < tr.length := by omega
    rw [List.getElem?_append, if_pos hilt] at hi
    rw [← hj]
    exact hc d (List.getElem?_mem hi)

/-- Case split for a lookup in a heap after `List.set`. -/
lemma set_lookup_cases {l : List Smob} {r i : Nat} {v x : Smob}
    (h : (l.set r v)[i]? = some x) :
    (i = r ∧ v = x) ∨ (i ≠ r ∧ l[i]? = some x) := by
  by_cases hir : i = r
  · subst hir
    by_cases hlt : i < l.length
    · rw [List.getElem?_set_self hlt] at h
      exact Or.inl ⟨rfl, by injection h⟩
    · rw [List.set_eq_of_length_le (le_of_not_lt hlt)] at h
      have := (List.getElem?_eq_some.mp h).1
      omega
  · rw [List.getElem?_set_ne (Ne.symm hir)] at h
    exact Or.inr ⟨hir, h⟩

lemma set_lookup_self {l : List Smob} {r : Nat} {v old : Smob}
    (h : l[r]? = some old) : (l.set r v)[r]? = some v :=
  List.getElem?_set_self (List.getElem?_eq_some.mp h).1

/-! ## Inversion lemmas for the validators -/

lemma valid_dsp_ok {w : World} {arg : SCMv} {pos expected : Nat} {r : Nat}
    {dsp : xdisplay_t} (h : valid_dsp w arg pos expected = .ok (r, dsp)) :
    w.heap[r]? = some (.xdisplay dsp) ∧ dsp.state &&& expected ≠ 0 := by
  unfold valid_dsp at h
  cases arg
  case obj r0 =>
    simp only at h
    split at h
    all_goals try (cases h)
    split at h
    all_goals try (cases h)
    rename_i dsp1 heq2
    split at h
    · rename_i hstate
      injection h with h1
      injection h1 with h2 h3
      subst h2; subst h3
      exact ⟨heq2, hstate⟩
    · split at h <;> cases h
  all_goals cases h

lemma valid_win_ok {w : World} {arg : SCMv} {pos expected : Nat} {r : Nat}
    {win : xwindow_t} (h : valid_win w arg pos expected = .ok (r, win)) :
    w.heap[r]? = some (.xwindow win) ∧ win.state &&& expected ≠ 0 := by
  unfold valid_win at h
  cases arg
  case obj r0 =>
    simp only at h
    split at h
    all_goals try (cases h)
    rename_i win1 heq
    split at h
    · rename_i hstate
      injection h with h1
      injection h1 with h2 h3
      subst h2; subst h3
      exact ⟨heq, hstate⟩
    · cases h
  all_goals cases h

lemma valid_gc_ok {w : World} {arg : SCMv} {pos expected : Nat} {r : Nat}
    {g : xgc_t} (h : valid_gc w arg pos expected = .ok (r, g)) :
    w.heap[r]? = some (.xgc g) ∧ g.state &&& expected ≠ 0 := by
  unfold valid_gc at h
  cases arg
  case obj r0 =>
    simp only at h
    split at h
    all_goals try (cases h)
    rename_i g1 heq
    split at h
    · rename_i hstate
      injection h with h1
      injection h1 with h2 h3
      subst h2; subst h3
      exact ⟨heq, hstate⟩
    · cases h
  all_goals cases h

end Guile2Xlib

namespace Guile2Xlib

/-! ## Projection simp lemmas -/

@[simp] lemma addCall_heap (w : World) (c : NativeCall) : (addCall w c).heap = w.heap := rfl

@[simp] lemma addCall_calls (w : World) (c : NativeCall) :
    (addCall w c).calls = w.calls ++ [c] := rfl

@[simp] lemma addCall_hash (w : World) (c : NativeCall) :
    (addCall w c).resource_id_hash = w.resource_id_hash := rfl

@[simp] lemma setHeap_heap (w : World) (r : Nat) (s : Smob) :
    (setHeap w r s).heap = w.heap.set r s := rfl

@[simp] lemma setHeap_calls (w : World) (r : Nat) (s : Smob) :
    (setHeap w r s).calls = w.calls := rfl

@[simp] lemma setHeap_hash (w : World) (r : Nat) (s : Smob) :
    (setHeap w r s).resource_id_hash = w.resource_id_hash := rfl

/-- Setting a non-display cell does not add display smobs. -/
lemma displays_set_nondisplay {heap : List Smob} {r : Nat} {v : Smob}
    (hv : ∀ d : xdisplay_t, v ≠ .xdisplay d) {i : Nat} {di : xdisplay_t}
    (h : (heap.set r v)[i]? = some (.xdisplay di)) :
    heap[i]? = some (.xdisplay di) := by
  rcases set_lookup_cases h with ⟨_, hveq⟩ | ⟨_, hold⟩
  · exact absurd hveq (hv di)
  · exact hold

/-! ## Invariant preservation for each primitive reachable from the sweep -/

lemma inv_scm_x_close_display_x (display : SCMv) {w : World} (h : Inv w) :
    Inv (scm_x_close_display_x display w).2 := by
  rcases hv : valid_dsp w display 1 XDISPLAY_STATE_OPEN with e | ⟨r, dsp⟩
  · unfold scm_x_close_display_x
    rw [hv]
    exact h
  · obtain ⟨hheap, hstate⟩ := valid_dsp_ok hv
    have hopen : dsp.state = XDISPLAY_STATE_OPEN := by
      rcases h.states r dsp hheap with h1 | h1
      · exact h1
      · rw [h1] at hstate
        exact absurd (by decide) hstate
    unfold scm_x_close_display_x
    rw [hv]
    refine ⟨?_, ?_, ?_, ?_⟩
    · -- states
      intro i di hdi
      simp only [addCall_heap, setHeap_heap] at hdi
      rcases set_lookup_cases hdi with ⟨_, hveq⟩ | ⟨_, hold⟩
      · injection hveq with hveq2
        rw [← hveq2]
        exact Or.inr rfl
      · exact h.states i di hold
    · -- uniq
      intro i j di dj hi hj hdd
      simp only [addCall_heap, setHeap_heap] at hi hj
      rcases set_lookup_cases hi with ⟨hir, hvi⟩ | ⟨hir, hi'⟩ <;>
        rcases set_lookup_cases hj with ⟨hjr, hvj⟩ | ⟨hjr, hj'⟩
      · omega
      · -- i = r, j ≠ r
        injection hvi with hvi2
        have hdsp : dj.dsp = dsp.dsp := by rw [← hdd, ← hvi2]
        have := h.uniq j r dj dsp hj' hheap hdsp
        omega
      · -- i ≠ r, j = r
        injection hvj with hvj2
        have hdsp : di.dsp = dsp.dsp := by rw [hdd, ← hvj2]
        have := h.uniq i r di dsp hi' hheap hdsp
        omega
      · exact h.uniq i j di dj hi' hj' hdd
    · -- consistent
      intro d hmem i di hdi hdd
      simp only [addCall_heap, setHeap_heap] at hdi
      simp only [addCall_calls, setHeap_calls, List.mem_append,
        List.mem_singleton] at hmem
      rcases set_lookup_cases hdi with ⟨_, hveq⟩ | ⟨hir, hold⟩
      · injection hveq with hveq2
        rw [← hveq2]
        simp [XDISPLAY_STATE_CLOSED, XDISPLAY_STATE_OPEN]
      · rcases hmem with hmem | hmem
        · exact h.consistent d hmem i di hold hdd
        · -- the new closeDisplay call: d = dsp.dsp
          injection hmem with hd2
          have hdsp : di.dsp = dsp.dsp := by rw [hdd, hd2]
          have := h.uniq i r di dsp hold hheap hdsp
          omega
    · -- good
      simp only [addCall_calls, setHeap_calls]
      refine goodTrace_append h.good ?_
      intro d _
      simp [isDepCall]

lemma inv_scm_x_destroy_window_x (window : SCMv) {w : World} (h : Inv w) :
    Inv (scm_x_destroy_window_x window w).2 := by
  rcases hv : valid_dsp w window 1 XDISPLAY_STATE_OPEN with e | ⟨rd, dsp⟩
  · unfold scm_x_destroy_window_x
    rw [hv]
    exact h
  · rcases hw : valid_win w window 1
        (cNot (XWINDOW_STATE_DESTROYED ||| XWINDOW_STATE_THIRD_PARTY |||
          XWINDOW_STATE_PIXMAP)) with e | ⟨rw1, win⟩
    · unfold scm_x_destroy_window_x
      rw [hv, hw]
      exact h
    · obtain ⟨hheap, hstate⟩ := valid_dsp_ok hv
      have hopen : dsp.state = XDISPLAY_STATE_OPEN := by
        rcases h.states rd dsp hheap with h1 | h1
        · exact h1
        · rw [h1] at hstate
          exact absurd (by decide) hstate
      obtain ⟨hwheap, _⟩ := valid_win_ok hw
      unfold scm_x_destroy_window_x
      rw [hv, hw]
      have hnd : ∀ d : xdisplay_t,
          Smob.xwindow { win with state := XWINDOW_STATE_DESTROYED } ≠ .xdisplay d := by
        intro d hne
        cases hne
      refine ⟨?_, ?_, ?_, ?_⟩
      · intro i di hdi
        simp only [addCall_heap, setHeap_heap] at hdi
        exact h.states i di (displays_set_nondisplay hnd hdi)
      · intro i j di dj hi hj hdd
        simp only [addCall_heap, setHeap_heap] at hi hj
        exact h.uniq i j di dj (displays_set_nondisplay hnd hi)
          (displays_set_nondisplay hnd hj) hdd
      · intro d hmem i di hdi hdd
        simp only [addCall_heap, setHeap_heap] at hdi
        simp only [addCall_calls, setHeap_calls, List.mem_append,
          List.mem_singleton] at hmem
        rcases hmem with hmem | hmem
        · exact h.consistent d hmem i di (displays_set_nondisplay hnd hdi) hdd
        · cases hmem
      · simp only [addCall_calls, setHeap_calls]
        refine goodTrace_append h.good ?_
        intro d hmem
        by_cases hd : d = dsp.dsp
        · rw [hd] at hmem
          exact absurd hopen (h.consistent dsp.dsp hmem rd dsp hheap rfl)
        · simp [isDepCall, hd]

lemma inv_scm_x_free_gc_x (gc : SCMv) {w : World} (h : Inv w) :
    Inv (scm_x_free_gc_x gc w).2 := by
  rcases hv : valid_dsp w gc 1 XDISPLAY_STATE_OPEN with e | ⟨rd, dsp⟩
  · unfold scm_x_free_gc_x
    rw [hv]
    exact h
  · rcases hg : valid_gc w gc 1 XGC_STATE_CREATED with e | ⟨rg, g⟩
    · unfold scm_x_free_gc_x
      rw [hv, hg]
      exact h
    · obtain ⟨hheap, hstate⟩ := valid_dsp_ok hv
      have hopen : dsp.state = XDISPLAY_STATE_OPEN := by
        rcases h.states rd dsp hheap with h1 | h1
        · exact h1
        · rw [h1] at hstate
          exact absurd (by decide) hstate
      unfold scm_x_free_gc_x
      rw [hv, hg]
      have hnd : ∀ d : xdisplay_t,
          Smob.xgc { g with state := XGC_STATE_FREED } ≠ .xdisplay d := by
        intro d hne
        cases hne
      refine ⟨?_, ?_, ?_, ?_⟩
      · intro i di hdi
        simp only [addCall_heap, setHeap_heap] at hdi
        exact h.states i di (displays_set_nondisplay hnd hdi)
      · intro i j di dj hi hj hdd
        simp only [addCall_heap, setHeap_heap] at hi hj
        exact h.uniq i j di dj (displays_set_nondisplay hnd hi)
          (displays_set_nondisplay hnd hj) hdd
      · intro d hmem i di hdi hdd
        simp only [addCall_heap, setHeap_heap] at hdi
        simp only [addCall_calls, setHeap_calls, List.mem_append,
          List.mem_singleton] at hmem
        rcases hmem with hmem | hmem
        · exact h.consistent d hmem i di (displays_set_nondisplay hnd hdi) hdd
        · cases hmem
      · simp only [addCall_calls, setHeap_calls]
        refine goodTrace_append h.good ?_
        intro d hmem
        by_cases hd : d = dsp.dsp
        · rw [hd] at hmem
          exact absurd hopen (h.consistent dsp.dsp hmem rd dsp hheap rfl)
        · simp [isDepCall, hd]

lemma inv_xdisplay_free (display : SCMv) {w : World} (h : Inv w) :
    Inv (xdisplay_free display w) := by
  unfold xdisplay_free
  split
  all_goals try exact h
  split
  all_goals try exact h
  split
  · exact inv_scm_x_close_display_x _ h
  · exact h

lemma inv_xwindow_free (window : SCMv) {w : World} (h : Inv w) :
    Inv (xwindow_free window w) := by
  unfold xwindow_free
  split
  all_goals try exact h
  split
  all_goals try exact h
  split
  · exact inv_scm_x_destroy_window_x _ h
  · exact h

lemma inv_xgc_free (gc : SCMv) {w : World} (h : Inv w) :
    Inv (xgc_free gc w) := by
  unfold xgc_free
  split
  all_goals try exact h
  split
  all_goals try exact h
  split
  · exact inv_scm_x_free_gc_x _ h
  · exact h

lemma inv_setFree (r : Nat) {w : World} (h : Inv w) : Inv (setFree w r) := by
  have hnd : ∀ d : xdisplay_t, Smob.freeCell ≠ .xdisplay d := by
    intro d hne
    cases hne
  refine ⟨?_, ?_, ?_, ?_⟩
  · intro i di hdi
    simp only [setFree, setHeap_heap] at hdi
    exact h.states i di (displays_set_nondisplay hnd hdi)
  · intro i j di dj hi hj hdd
    simp only [setFree, setHeap_heap] at hi hj
    exact h.uniq i j di dj (displays_set_nondisplay hnd hi)
      (displays_set_nondisplay hnd hj) hdd
  · intro d hmem i di hdi hdd
    simp only [setFree, setHeap_heap] at hdi
    simp only [setFree, setHeap_calls] at hmem
    exact h.consistent d hmem i di (displays_set_nondisplay hnd hdi) hdd
  · simp only [setFree, setHeap_calls]
    exact h.good

lemma inv_freeSmob (r : Nat) {w : World} (h : Inv w) : Inv (freeSmob w r) := by
  unfold freeSmob
  split
  · exact inv_setFree r (inv_xdisplay_free _ h)
  · exact inv_setFree r (inv_xwindow_free _ h)
  · exact inv_setFree r (inv_xgc_free _ h)
  · exact inv_setFree r h
  · exact h

lemma inv_sweep (order : List Nat) {w : World} (h : Inv w) : Inv (sweep order w) := by
  induction order generalizing w with
  | nil => exact h
  | cons r rest ih => exact ih (inv_freeSmob r h)

end Guile2Xlib

namespace Guile2Xlib

/-! ## Bridge lemmas for concrete worlds and the table -/

lemma uniqHandles_of_b {l : List Smob} (h : uniqHandlesb l = true) :
    ∀ (i j : Nat) (di dj : xdisplay_t), l[i]? = some (.xdisplay di) →
      l[j]? = some (.xdisplay dj) → di.dsp = dj.dsp → i = j := by
  induction l with
  | nil =>
    intro i j di dj hi
    simp at hi
  | cons s rest ih =>
    unfold uniqHandlesb at h
    rw [Bool.and_eq_true] at h
    obtain ⟨h1, h2⟩ := h
    intro i j di dj hi hj hdd
    match i, j with
    | 0, 0 => rfl
    | 0, j + 1 =>
      exfalso
      simp only [List.getElem?_cons_zero, Option.some_inj] at hi
      simp only [List.getElem?_cons_succ] at hj
      rw [hi] at h1
      simp only [handleOf] at h1
      have hmem := List.getElem?_mem hj
      have := (List.all_eq_true.mp h1) _ hmem
      simp [handleOf, hdd] at this
    | i + 1, 0 =>
      exfalso
      simp only [List.getElem?_cons_zero, Option.some_inj] at hj
      simp only [List.getElem?_cons_succ] at hi
      rw [hj] at h1
      simp only [handleOf] at h1
      have hmem := List.getElem?_mem hi
      have := (List.all_eq_true.mp h1) _ hmem
      simp [handleOf, hdd] at this
    | i + 1, j + 1 =>
      simp only [List.getElem?_cons_succ] at hi hj
      have := ih h2 i j di dj hi hj hdd
      omega

/-- A world with an empty trace satisfies the teardown invariant as soon
as its display states are well formed and its display handles unique. -/
lemma Inv_mk_of_checks (w : World) (hcalls : w.calls = [])
    (hstates : w.heap.all displayStateOKb = true)
    (huniq : uniqHandlesb w.heap = true) : Inv w := by
  refine ⟨?_, uniqHandles_of_b huniq, ?_, ?_⟩
  · intro i di hdi
    have hmem := List.getElem?_mem hdi
    have := (List.all_eq_true.mp hstates) _ hmem
    simp only [displayStateOKb, Bool.or_eq_true, beq_iff_eq] at this
    exact this
  · intro d hmem
    rw [hcalls] at hmem
    simp at hmem
  · rw [hcalls]
    exact goodTrace_nil

lemma hashq_ref_set_self (h : List (Nat × SCMv)) (k : Nat) (v : SCMv) :
    hashq_ref (hashq_set h k v) k = some v := by
  induction h with
  | nil => simp [hashq_set, hashq_ref]
  | cons p rest ih =>
    unfold hashq_set
    by_cases hk : p.1 == k
    · rw [if_pos hk]
      simp [hashq_ref]
    · rw [if_neg hk]
      unfold hashq_ref at ih ⊢
      rw [List.find?_cons]
      have hk2 : (p.1 == k) = false := by simpa using hk
      rw [hk2]
      exact ih

/-- `valid_scr` succeeds on a display smob argument whenever the screen
argument has an accepted shape. -/
lemma valid_scr_ok_of_scrOK {env : NativeEnv} {w : World} {r : Nat}
    {dsp : xdisplay_t} {scr : Option SCMv} (pos : Nat)
    (hr : w.heap[r]? = some (.xdisplay dsp)) (h : scrOK env scr) :
    ∃ k : Nat, valid_scr env w (.obj r) scr pos = .ok k := by
  cases scr with
  | none =>
    refine ⟨env.defaultScreen, ?_⟩
    unfold valid_scr
    simp [hr]
  | some s =>
    cases s with
    | int n =>
      obtain ⟨hn0, hge, hlt⟩ := h
      refine ⟨n.toNat, ?_⟩
      unfold valid_scr
      simp only [hr]
      rw [if_neg hn0, if_pos ⟨hge, hlt⟩]
    | boolF => exact absurd h (by simp [scrOK])
    | boolT => exact absurd h (by simp [scrOK])
    | unspecified => exact absurd h (by simp [scrOK])
    | str s => exact absurd h (by simp [scrOK])
    | obj r2 => exact absurd h (by simp [scrOK])

end Guile2Xlib

namespace Guile2Xlib

/-! ## Evaluation helpers for the validators -/

lemma valid_dsp_display_open {w : World} {r : Nat} {dsp : xdisplay_t}
    (hr : w.heap[r]? = some (.xdisplay dsp))
    (hopen : dsp.state = XDISPLAY_STATE_OPEN) (pos : Nat) :
    valid_dsp w (.obj r) pos XDISPLAY_STATE_OPEN = .ok (r, dsp) := by
  unfold valid_dsp
  simp [hr, hopen, XDISPLAY_STATE_OPEN]

lemma valid_dsp_display_closed {w : World} {r : Nat} {dsp : xdisplay_t}
    (hr : w.heap[r]? = some (.xdisplay dsp))
    (hcl : dsp.state &&& XDISPLAY_STATE_OPEN = 0) (pos : Nat) :
    valid_dsp w (.obj r) pos XDISPLAY_STATE_OPEN =
      .error (.miscError "Display ~S has been closed") := by
  unfold valid_dsp
  simp [hr, hcl]

lemma valid_dsp_win_open {w : World} {rw1 rd : Nat} {win : xwindow_t}
    {dsp : xdisplay_t} (hw : w.heap[rw1]? = some (.xwindow win))
    (hd : win.dsp = .obj rd) (hdsp : w.heap[rd]? = some (.xdisplay dsp))
    (hopen : dsp.state = XDISPLAY_STATE_OPEN) (pos : Nat) :
    valid_dsp w (.obj rw1) pos XDISPLAY_STATE_OPEN = .ok (rd, dsp) := by
  unfold valid_dsp
  simp [hw, hd, hdsp, hopen, XDISPLAY_STATE_OPEN]

lemma valid_dsp_gc_open {w : World} {rg rd : Nat} {g : xgc_t}
    {dsp : xdisplay_t} (hg : w.heap[rg]? = some (.xgc g))
    (hd : g.dsp = .obj rd) (hdsp : w.heap[rd]? = some (.xdisplay dsp))
    (hopen : dsp.state = XDISPLAY_STATE_OPEN) (pos : Nat) :
    valid_dsp w (.obj rg) pos XDISPLAY_STATE_OPEN = .ok (rd, dsp) := by
  unfold valid_dsp
  simp [hg, hd, hdsp, hopen, XDISPLAY_STATE_OPEN]

/-! ## C2: identity table lookup contract -/

/-- C2: resolving a native id through `lookup_window` (as done for every
id embedded in event data) returns `#f` for the sentinel `None` (0)
without creating anything; returns the registered live window wrapper
unchanged when the table holds one, so repeated resolutions are
reference-equal; and otherwise synthesizes a fresh ThirdParty wrapper
owned by the given display, registers it, and returns the same wrapper
on the next resolution of that id. -/
theorem C2_lookup_window_contract (display : SCMv) (id : Nat) (w : World) :
    (id = 0 → lookup_window display id w = (.boolF, w)) ∧
    (∀ (r : Nat) (win : xwindow_t), id ≠ 0 →
      hashq_ref w.resource_id_hash id = some (.obj r) →
      w.heap[r]? = some (.xwindow win) →
      lookup_window display id w = (.obj r, w)) ∧
    (id ≠ 0 →
      ((hashq_ref w.resource_id_hash id).getD .boolF = .boolF ∨
        isWindowSmob w ((hashq_ref w.resource_id_hash id).getD .boolF) = false) →
      (lookup_window display id w).1 = .obj w.heap.length ∧
      ((lookup_window display id w).2).heap[w.heap.length]? =
        some (.xwindow ⟨display, id, XWINDOW_STATE_THIRD_PARTY⟩) ∧
      (lookup_window display id (lookup_window display id w).2).1 =
        (lookup_window display id w).1) := by
  refine ⟨?_, ?_, ?_⟩
  · intro h0
    unfold lookup_window
    rw [if_pos h0]
  · intro r win hid hh hwin
    unfold lookup_window
    rw [if_neg hid]
    have hw : isWindowSmob w (.obj r) = true := by
      unfold isWindowSmob
      simp [hwin]
    simp [hh, hw]
  · intro hid hmiss
    have hcell : (w.heap ++
        [Smob.xwindow ⟨display, id, XWINDOW_STATE_THIRD_PARTY⟩])[w.heap.length]? =
        some (Smob.xwindow ⟨display, id, XWINDOW_STATE_THIRD_PARTY⟩) := by
      rw [List.getElem?_append_right (le_refl _)]
      simp
    have h1 : lookup_window display id w =
        (.obj w.heap.length,
          { w with
            heap := w.heap ++ [.xwindow ⟨display, id, XWINDOW_STATE_THIRD_PARTY⟩],
            resource_id_hash :=
              hashq_set w.resource_id_hash id (.obj w.heap.length) }) := by
      unfold lookup_window
      rw [if_neg hid, if_pos hmiss]
    have hw2 : isWindowSmob
        { w with
          heap := w.heap ++ [.xwindow ⟨display, id, XWINDOW_STATE_THIRD_PARTY⟩],
          resource_id_hash := hashq_set w.resource_id_hash id (.obj w.heap.length) }
        (.obj w.heap.length) = true := by
      unfold isWindowSmob
      simp [hcell]
    have h2 : (lookup_window display id
        { w with
          heap := w.heap ++ [.xwindow ⟨display, id, XWINDOW_STATE_THIRD_PARTY⟩],
          resource_id_hash :=
            hashq_set w.resource_id_hash id (.obj w.heap.length) }).1 =
        .obj w.heap.length := by
      unfold lookup_window
      rw [if_neg hid]
      simp [hashq_ref_set_self, hw2]
    rw [h1]
    exact ⟨rfl, hcell, h2⟩

/-- Witness for C2 at concrete inputs: id 0 yields `#f`; id 42 (held
live in the table of `lookW`) yields the registered wrapper both times;
id 99 (absent) synthesizes the fresh wrapper at the next heap cell. -/
theorem C2_lookup_window_contract_witness :
    lookup_window (.obj 0) 0 lookW = (.boolF, lookW) ∧
    lookup_window (.obj 0) 42 lookW = (.obj 1, lookW) ∧
    (lookup_window (.obj 0) 99 lookW).1 = .obj 2 ∧
    (lookup_window (.obj 0) 99 (lookup_window (.obj 0) 99 lookW).2).1 = .obj 2 := by
  refine ⟨(C2_lookup_window_contract (.obj 0) 0 lookW).1 rfl, ?_, ?_, ?_⟩
  · exact (C2_lookup_window_contract (.obj 0) 42 lookW).2.1 1 ⟨.obj 0, 42, 1⟩
      (by decide) (by decide) (by decide)
  · exact ((C2_lookup_window_contract (.obj 0) 99 lookW).2.2 (by decide)
      (Or.inl (by decide))).1
  · have h := (C2_lookup_window_contract (.obj 0) 99 lookW).2.2 (by decide)
      (Or.inl (by decide))
    rw [h.2.2, h.1]
    rfl

/-! ## C8: errors classified by actual state -/

/-- C8: when a window or GC state check fails, the raised error is the
`scm_misc_error` whose message is keyed by the wrapper's actual current
state, and those messages are pairwise distinct over the five window
states and over the three GC states; the display state check raises the
specific "has been closed" message when an Open display was expected. -/
theorem C8_errors_classified_by_state :
    (∀ (w : World) (r pos expected : Nat) (win : xwindow_t),
      w.heap[r]? = some (.xwindow win) → win.state &&& expected = 0 →
      valid_win w (.obj r) pos expected =
        .error (.miscError (xwindow_err_msg win.state))) ∧
    (∀ s1 ∈ [1, 2, 4, 8, 16], ∀ s2 ∈ [1, 2, 4, 8, 16],
      xwindow_err_msg s1 = xwindow_err_msg s2 → s1 = s2) ∧
    (∀ (w : World) (r pos expected : Nat) (g : xgc_t),
      w.heap[r]? = some (.xgc g) → g.state &&& expected = 0 →
      valid_gc w (.obj r) pos expected =
        .error (.miscError (xgc_err_msg g.state))) ∧
    (∀ s1 ∈ [1, 2, 4], ∀ s2 ∈ [1, 2, 4],
      xgc_err_msg s1 = xgc_err_msg s2 → s1 = s2) ∧
    (∀ (w : World) (r pos : Nat) (dsp : xdisplay_t),
      w.heap[r]? = some (.xdisplay dsp) → dsp.state &&& XDISPLAY_STATE_OPEN = 0 →
      valid_dsp w (.obj r) pos XDISPLAY_STATE_OPEN =
        .error (.miscError "Display ~S has been closed")) := by
  refine ⟨?_, by decide, ?_, by decide, ?_⟩
  · intro w r pos expected win hwin hst
    unfold valid_win
    simp [hwin, hst]
  · intro w r pos expected g hg hst
    unfold valid_gc
    simp [hg, hst]
  · intro w r pos dsp hr hst
    exact valid_dsp_display_closed hr hst pos

/-- Witness for C8: destroying the pixmap of `pixW` is rejected as "is a
pixmap"; freeing the Default gc of `gcW` is rejected as "is the default
GC"; a closed display is rejected as "has been closed". -/
theorem C8_errors_classified_by_state_witness :
    valid_win pixW (.obj 1) 1 (cNot (XWINDOW_STATE_DESTROYED |||
        XWINDOW_STATE_THIRD_PARTY ||| XWINDOW_STATE_PIXMAP)) =
      .error (.miscError "Window ~S is a pixmap") ∧
    valid_gc gcW (.obj 2) 1 XGC_STATE_CREATED =
      .error (.miscError "GC ~S is the default GC") ∧
    valid_dsp ⟨[.xdisplay ⟨7, 2, .boolF⟩], [], []⟩ (.obj 0) 1 XDISPLAY_STATE_OPEN =
      .error (.miscError "Display ~S has been closed") := by
  obtain ⟨hw, _, hg, _, hd⟩ := C8_errors_classified_by_state
  refine ⟨?_, ?_, ?_⟩
  · have := hw pixW 1 1 (cNot (XWINDOW_STATE_DESTROYED |||
      XWINDOW_STATE_THIRD_PARTY ||| XWINDOW_STATE_PIXMAP)) ⟨.obj 0, 43, 16⟩
      (by decide) (by decide)
    simpa using this
  · have := hg gcW 2 1 XGC_STATE_CREATED ⟨.obj 0, 6, 1⟩ (by decide) (by decide)
    simpa using this
  · exact hd ⟨[.xdisplay ⟨7, 2, .boolF⟩], [], []⟩ 0 1 ⟨7, 2, .boolF⟩ (by decide) (by decide)

/-! ## C9: open-display failure atomicity -/

/-- C9: when the native `XOpenDisplay` returns NULL, `x-open-display!`
raises the connection error and leaves the heap and identity table
exactly as they were (the partially allocated wrapper is freed, nothing
is registered); on native success it returns a fresh display wrapper in
Open state with no cached default GC. -/
theorem C9_open_display_failure_atomic (host : Option SCMv) (hh : hostOK host)
    (w : World) :
    ((scm_x_open_display_x host none w).1 =
        .error (.miscError "Failed to open X display on ~S") ∧
      (scm_x_open_display_x host none w).2.heap = w.heap ∧
      (scm_x_open_display_x host none w).2.resource_id_hash =
        w.resource_id_hash) ∧
    (∀ hnd : Nat,
      (scm_x_open_display_x host (some hnd) w).1 = .ok (.obj w.heap.length) ∧
      (scm_x_open_display_x host (some hnd) w).2.heap =
        w.heap ++ [.xdisplay ⟨hnd, XDISPLAY_STATE_OPEN, .boolF⟩] ∧
      (scm_x_open_display_x host (some hnd) w).2.resource_id_hash =
        w.resource_id_hash) := by
  cases host with
  | none =>
    exact ⟨⟨rfl, rfl, rfl⟩, fun hnd => ⟨rfl, rfl, rfl⟩⟩
  | some h =>
    cases h with
    | str s => exact ⟨⟨rfl, rfl, rfl⟩, fun hnd => ⟨rfl, rfl, rfl⟩⟩
    | boolF => exact absurd hh (by simp [hostOK])
    | boolT => exact absurd hh (by simp [hostOK])
    | unspecified => exact absurd hh (by simp [hostOK])
    | int n => exact absurd hh (by simp [hostOK])
    | obj r => exact absurd hh (by simp [hostOK])

/-- Witness for C9 on the empty world, host omitted. -/
theorem C9_open_display_failure_atomic_witness :
    (scm_x_open_display_x none none ⟨[], [], []⟩).1 =
      .error (.miscError "Failed to open X display on ~S") ∧
    (scm_x_open_display_x none none ⟨[], [], []⟩).2.heap = [] ∧
    (scm_x_open_display_x none (some 7) ⟨[], [], []⟩).2.heap =
      [.xdisplay ⟨7, XDISPLAY_STATE_OPEN, .boolF⟩] := by
  have h := C9_open_display_failure_atomic none trivial ⟨[], [], []⟩
  exact ⟨h.1.1, h.1.2.1, (h.2 7).2.1⟩

end Guile2Xlib

namespace Guile2Xlib

/-! ## C10: frame effect of map/unmap -/

/-- C10: on an Open display, `x-map-window!` applied to an Unmapped
window and `x-unmap-window!` applied to a Mapped window mutate only the
window wrapper's state field (and append the one native call); the
wrapper's display reference and native id survive inside the updated
record, the identity table is untouched, and the owning display's smob
(state and cached default GC) is unchanged. -/
theorem C10_map_unmap_frame (w : World) (r rd : Nat) (win : xwindow_t)
    (dsp : xdisplay_t) (hw : w.heap[r]? = some (.xwindow win))
    (hd : win.dsp = .obj rd) (hdsp : w.heap[rd]? = some (.xdisplay dsp))
    (hopen : dsp.state = XDISPLAY_STATE_OPEN) :
    (win.state = XWINDOW_STATE_UNMAPPED →
      scm_x_map_window_x (.obj r) w =
        (.ok .unspecified,
          addCall (setHeap w r (.xwindow { win with state := XWINDOW_STATE_MAPPED }))
            (.mapWindow dsp.dsp win.win)) ∧
      (scm_x_map_window_x (.obj r) w).2.resource_id_hash = w.resource_id_hash ∧
      (scm_x_map_window_x (.obj r) w).2.heap[rd]? = some (.xdisplay dsp)) ∧
    (win.state = XWINDOW_STATE_MAPPED →
      scm_x_unmap_window_x (.obj r) w =
        (.ok .unspecified,
          addCall (setHeap w r (.xwindow { win with state := XWINDOW_STATE_UNMAPPED }))
            (.unmapWindow dsp.dsp win.win)) ∧
      (scm_x_unmap_window_x (.obj r) w).2.resource_id_hash = w.resource_id_hash ∧
      (scm_x_unmap_window_x (.obj r) w).2.heap[rd]? = some (.xdisplay dsp)) := by
  have hv := valid_dsp_win_open hw hd hdsp hopen 1
  have hrd : r ≠ rd := by
    intro he
    rw [he, hdsp] at hw
    cases hw
  constructor
  · intro hst
    have hvw : valid_win w (.obj r) 1 XWINDOW_STATE_UNMAPPED = .ok (r, win) := by
      unfold valid_win
      simp [hw, hst, XWINDOW_STATE_UNMAPPED]
    have heq : scm_x_map_window_x (.obj r) w =
        (.ok .unspecified,
          addCall (setHeap w r (.xwindow { win with state := XWINDOW_STATE_MAPPED }))
            (.mapWindow dsp.dsp win.win)) := by
      unfold scm_x_map_window_x
      rw [hv, hvw]
    refine ⟨heq, ?_, ?_⟩
    · rw [heq]
      rfl
    · rw [heq]
      simp only [addCall_heap, setHeap_heap]
      rw [List.getElem?_set_ne hrd]
      exact hdsp
  · intro hst
    have hvw : valid_win w (.obj r) 1 XWINDOW_STATE_MAPPED = .ok (r, win) := by
      unfold valid_win
      simp [hw, hst, XWINDOW_STATE_MAPPED]
    have heq : scm_x_unmap_window_x (.obj r) w =
        (.ok .unspecified,
          addCall (setHeap w r (.xwindow { win with state := XWINDOW_STATE_UNMAPPED }))
            (.unmapWindow dsp.dsp win.win)) := by
      unfold scm_x_unmap_window_x
      rw [hv, hvw]
    refine ⟨heq, ?_, ?_⟩
    · rw [heq]
      rfl
    · rw [heq]
      simp only [addCall_heap, setHeap_heap]
      rw [List.getElem?_set_ne hrd]
      exact hdsp

/-- Witness for C10: mapping the unmapped window of `lookW` changes only
its state field and leaves the identity table untouched. -/
theorem C10_map_unmap_frame_witness :
    scm_x_map_window_x (.obj 1) lookW =
      (.ok .unspecified,
        addCall (setHeap lookW 1 (.xwindow ⟨.obj 0, 42, XWINDOW_STATE_MAPPED⟩))
          (.mapWindow 7 42)) ∧
    (scm_x_map_window_x (.obj 1) lookW).2.resource_id_hash =
      lookW.resource_id_hash := by
  have h := (C10_map_unmap_frame lookW 1 0 ⟨.obj 0, 42, XWINDOW_STATE_UNMAPPED⟩
    ⟨7, XDISPLAY_STATE_OPEN, .boolF⟩ (by decide) rfl (by decide) rfl).1 rfl
  exact ⟨h.1, h.2.1⟩

/-! ## C5: idempotent-safe explicit close -/

/-- C5: `x-close-display!` on an Open display marks it Closed and issues
the one native `XCloseDisplay`; a second call raises the "has been
closed" state error and appends no further native call; GC-triggered
finalization of the already-Closed display is a no-op. -/
theorem C5_close_display_idempotent_safe (w : World) (r : Nat)
    (dsp : xdisplay_t) (hr : w.heap[r]? = some (.xdisplay dsp))
    (hopen : dsp.state = XDISPLAY_STATE_OPEN) :
    scm_x_close_display_x (.obj r) w =
      (.ok .unspecified,
        addCall (setHeap w r (.xdisplay { dsp with state := XDISPLAY_STATE_CLOSED }))
          (.closeDisplay dsp.dsp)) ∧
    scm_x_close_display_x (.obj r) (scm_x_close_display_x (.obj r) w).2 =
      (.error (.miscError "Display ~S has been closed"),
        (scm_x_close_display_x (.obj r) w).2) ∧
    xdisplay_free (.obj r) (scm_x_close_display_x (.obj r) w).2 =
      (scm_x_close_display_x (.obj r) w).2 := by
  have hv := valid_dsp_display_open hr hopen 1
  have heq : scm_x_close_display_x (.obj r) w =
      (.ok .unspecified,
        addCall (setHeap w r (.xdisplay { dsp with state := XDISPLAY_STATE_CLOSED }))
          (.closeDisplay dsp.dsp)) := by
    unfold scm_x_close_display_x
    rw [hv]
  have hset : (scm_x_close_display_x (.obj r) w).2.heap[r]? =
      some (.xdisplay { dsp with state := XDISPLAY_STATE_CLOSED }) := by
    rw [heq]
    simp only [addCall_heap, setHeap_heap]
    exact set_lookup_self hr
  have hv2 : valid_dsp (scm_x_close_display_x (.obj r) w).2 (.obj r) 1
      XDISPLAY_STATE_OPEN = .error (.miscError "Display ~S has been closed") :=
    valid_dsp_display_closed hset
      (show XDISPLAY_STATE_CLOSED &&& XDISPLAY_STATE_OPEN = 0 by decide) 1
  refine ⟨heq, ?_, ?_⟩
  · generalize hW1 : (scm_x_close_display_x (.obj r) w).2 = w1 at hv2 ⊢
    unfold scm_x_close_display_x
    rw [hv2]
  · generalize hW1 : (scm_x_close_display_x (.obj r) w).2 = w1 at hset ⊢
    unfold xdisplay_free
    simp [hset, XDISPLAY_STATE_CLOSED, XDISPLAY_STATE_OPEN]

/-- Witness for C5 on a world with one Open display: one native close in
the trace after the first call, unchanged after the second, which
errors. -/
theorem C5_close_display_idempotent_safe_witness :
    scm_x_close_display_x (.obj 0) oneDspW =
      (.ok .unspecified,
        addCall (setHeap oneDspW 0 (.xdisplay ⟨7, XDISPLAY_STATE_CLOSED, .boolF⟩))
          (.closeDisplay 7)) ∧
    (scm_x_close_display_x (.obj 0) (scm_x_close_display_x (.obj 0) oneDspW).2).1 =
      .error (.miscError "Display ~S has been closed") ∧
    (scm_x_close_display_x (.obj 0) (scm_x_close_display_x (.obj 0) oneDspW).2).2.calls =
      [.closeDisplay 7] := by
  have h := C5_close_display_idempotent_safe oneDspW 0 ⟨7, XDISPLAY_STATE_OPEN, .boolF⟩
    (by decide) rfl
  refine ⟨h.1, ?_, ?_⟩
  · rw [h.2.1]
  · rw [h.2.1, h.1]
    rfl

/-! ## C7: free-gc precondition -/

/-- C7: on an Open display, `x-free-gc!` succeeds exactly on a Created
gc — issuing `XFreeGC` and marking the wrapper Freed — while a
Default-state gc is rejected as "is the default GC" and a Freed gc as
"has been freed", in both cases without touching the world. -/
theorem C7_free_gc_requires_created (w : World) (r rd : Nat) (g : xgc_t)
    (dsp : xdisplay_t) (hg : w.heap[r]? = some (.xgc g)) (hd : g.dsp = .obj rd)
    (hdsp : w.heap[rd]? = some (.xdisplay dsp))
    (hopen : dsp.state = XDISPLAY_STATE_OPEN) :
    (g.state = XGC_STATE_CREATED →
      scm_x_free_gc_x (.obj r) w =
        (.ok .unspecified,
          addCall (setHeap w r (.xgc { g with state := XGC_STATE_FREED }))
            (.freeGC dsp.dsp g.gc))) ∧
    (g.state = XGC_STATE_DEFAULT →
      scm_x_free_gc_x (.obj r) w =
        (.error (.miscError "GC ~S is the default GC"), w)) ∧
    (g.state = XGC_STATE_FREED →
      scm_x_free_gc_x (.obj r) w =
        (.error (.miscError "GC ~S has been freed"), w)) := by
  have hv := valid_dsp_gc_open hg hd hdsp hopen 1
  refine ⟨?_, ?_, ?_⟩
  · intro hst
    have hvg : valid_gc w (.obj r) 1 XGC_STATE_CREATED = .ok (r, g) := by
      unfold valid_gc
      simp [hg, hst, XGC_STATE_CREATED]
    unfold scm_x_free_gc_x
    rw [hv, hvg]
  · intro hst
    have hvg : valid_gc w (.obj r) 1 XGC_STATE_CREATED =
        .error (.miscError "GC ~S is the default GC") := by
      unfold valid_gc
      simp [hg, hst, xgc_err_msg, XGC_STATE_CREATED, XGC_STATE_DEFAULT]
      try decide
    unfold scm_x_free_gc_x
    rw [hv, hvg]
  · intro hst
    have hvg : valid_gc w (.obj r) 1 XGC_STATE_CREATED =
        .error (.miscError "GC ~S has been freed") := by
      unfold valid_gc
      simp [hg, hst, xgc_err_msg, XGC_STATE_CREATED, XGC_STATE_DEFAULT,
        XGC_STATE_FREED]
      try decide
    unfold scm_x_free_gc_x
    rw [hv, hvg]

/-- Witness for C7 on `gcW`: the Created gc is freed with one native
call; the Default and Freed gcs are rejected with their classified
errors and no native call. -/
theorem C7_free_gc_requires_created_witness :
    scm_x_free_gc_x (.obj 1) gcW =
      (.ok .unspecified,
        addCall (setHeap gcW 1 (.xgc ⟨.obj 0, 5, XGC_STATE_FREED⟩)) (.freeGC 7 5)) ∧
    scm_x_free_gc_x (.obj 2) gcW =
      (.error (.miscError "GC ~S is the default GC"), gcW) ∧
    scm_x_free_gc_x (.obj 3) gcW =
      (.error (.miscError "GC ~S has been freed"), gcW) := by
  refine ⟨?_, ?_, ?_⟩
  · exact (C7_free_gc_requires_created gcW 1 0 ⟨.obj 0, 5, XGC_STATE_CREATED⟩
      ⟨7, XDISPLAY_STATE_OPEN, .boolF⟩ (by decide) rfl (by decide) rfl).1 rfl
  · exact (C7_free_gc_requires_created gcW 2 0 ⟨.obj 0, 6, XGC_STATE_DEFAULT⟩
      ⟨7, XDISPLAY_STATE_OPEN, .boolF⟩ (by decide) rfl (by decide) rfl).2.1 rfl
  · exact (C7_free_gc_requires_created gcW 3 0 ⟨.obj 0, 8, XGC_STATE_FREED⟩
      ⟨7, XDISPLAY_STATE_OPEN, .boolF⟩ (by decide) rfl (by decide) rfl).2.2 rfl

end Guile2Xlib

namespace Guile2Xlib

/-! ## C6: default-GC caching -/

/-- C6 counterexample: with three screens and distinct native
`DefaultGC` handles per screen, asking for the default GC of screen 1
and then of screen 2 returns the same wrapper (heap cell 1) both times,
and that wrapper caches screen 1's native handle: the cache is one per
display, not one per screen as claimed. -/
theorem C6_per_screen_counterexample :
    (scm_x_default_gc envC (.obj 0) (some (.int 1)) oneDspW).1 = .ok (.obj 1) ∧
    (scm_x_default_gc envC (.obj 0) (some (.int 2)) oneDspW1).1 = .ok (.obj 1) ∧
    oneDspW1.heap[1]? =
      some (.xgc ⟨.obj 0, envC.defaultGC 1, XGC_STATE_DEFAULT⟩) ∧
    envC.defaultGC 1 ≠ envC.defaultGC 2 :=
  ⟨rfl, rfl, rfl, by decide⟩

/-- C6 (amended): for an Open display with no cached default GC, the
first `x-default-gc` call creates a Default-state gc smob wrapping
`DefaultGC` of the validated screen and caches it in the display's `gc`
field; a second call — for the same or any other valid screen — returns
the reference-equal cached wrapper and leaves the world unchanged (one
default GC per display); and `xdisplay_mark` thereafter yields the
cached gc, keeping it reachable from its display. -/
theorem C6_default_gc_cached_on_display (env : NativeEnv) (w : World) (r : Nat)
    (dsp : xdisplay_t) (scr1 scr2 : Option SCMv)
    (hr : w.heap[r]? = some (.xdisplay dsp))
    (hopen : dsp.state = XDISPLAY_STATE_OPEN) (hgc : dsp.gc = .boolF)
    (h1 : scrOK env scr1) (h2 : scrOK env scr2) :
    ∃ k : Nat, valid_scr env w (.obj r) scr1 2 = .ok k ∧
      scm_x_default_gc env (.obj r) scr1 w =
        (.ok (.obj w.heap.length),
          { w with heap := List.set (w.heap ++ [Smob.xgc ⟨SCMv.obj r, env.defaultGC k, XGC_STATE_DEFAULT⟩]) r (Smob.xdisplay { dsp with gc := SCMv.obj w.heap.length }) }) ∧
      scm_x_default_gc env (.obj r) scr2 (scm_x_default_gc env (.obj r) scr1 w).2 =
        (.ok (.obj w.heap.length), (scm_x_default_gc env (.obj r) scr1 w).2) ∧
      xdisplay_mark (.obj r) (scm_x_default_gc env (.obj r) scr1 w).2 =
        .obj w.heap.length := by
  obtain ⟨k, hk⟩ := valid_scr_ok_of_scrOK 2 hr h1
  have hv := valid_dsp_display_open hr hopen 1
  have hrlen : r < w.heap.length := (List.getElem?_eq_some.mp hr).1
  have heq : scm_x_default_gc env (.obj r) scr1 w =
      (.ok (.obj w.heap.length),
        { w with heap := List.set (w.heap ++ [Smob.xgc ⟨SCMv.obj r, env.defaultGC k, XGC_STATE_DEFAULT⟩]) r (Smob.xdisplay { dsp with gc := SCMv.obj w.heap.length }) }) := by
    unfold scm_x_default_gc
    rw [hv, hk]
    simp [hgc]
  have happ : (w.heap ++
      [Smob.xgc ⟨.obj r, env.defaultGC k, XGC_STATE_DEFAULT⟩])[r]? =
      some (.xdisplay dsp) := by
    rw [List.getElem?_append, if_pos hrlen]
    exact hr
  have hset : ((scm_x_default_gc env (.obj r) scr1 w).2).heap[r]? =
      some (.xdisplay { dsp with gc := .obj w.heap.length }) := by
    rw [heq]
    exact set_lookup_self happ
  have hv2 := valid_dsp_display_open hset hopen 1
  obtain ⟨k2, hk2⟩ := valid_scr_ok_of_scrOK 2 hset h2
  refine ⟨k, hk, heq, ?_, ?_⟩
  · generalize hW1 : (scm_x_default_gc env (.obj r) scr1 w).2 = w1 at hv2 hk2 ⊢
    unfold scm_x_default_gc
    rw [hv2, hk2]
    simp
  · generalize hW1 : (scm_x_default_gc env (.obj r) scr1 w).2 = w1 at hset ⊢
    unfold xdisplay_mark
    simp [hset]

/-- Witness for C6 (amended) on `oneDspW`: the second call, for a
different screen, returns the cached wrapper at heap cell 1, and the
display marks it. -/
theorem C6_default_gc_cached_on_display_witness :
    (scm_x_default_gc envC (.obj 0) (some (.int 2)) oneDspW1).1 = .ok (.obj 1) ∧
    xdisplay_mark (.obj 0) oneDspW1 = .obj 1 := by
  obtain ⟨k, hk, heq, heq2, hmark⟩ := C6_default_gc_cached_on_display envC oneDspW 0
    ⟨7, XDISPLAY_STATE_OPEN, .boolF⟩ (some (.int 1)) (some (.int 2)) (by decide)
    rfl rfl ⟨by decide, by decide, by decide⟩ ⟨by decide, by decide, by decide⟩
  exact ⟨congrArg Prod.fst heq2, hmark⟩

/-! ## C4: pixmap release routing -/

/-- C4 at its failing input (the code contradicts the claim): on an Open
display, explicitly destroying a Pixmap-state drawable raises the "is a
pixmap" state error and performs no native call, and the GC-triggered
release of the same wrapper (which routes into `scm_x_destroy_window_x`)
likewise performs no native call at all — in particular `XFreePixmap`,
which the claim requires and which the source never issues, does not
appear in the trace, and neither does `XDestroyWindow`. -/
theorem C4_pixmap_release_no_native_free :
    (scm_x_destroy_window_x (.obj 1) pixW).1 =
      .error (.miscError "Window ~S is a pixmap") ∧
    (scm_x_destroy_window_x (.obj 1) pixW).2 = pixW ∧
    xwindow_free (.obj 1) pixW = pixW ∧
    (sweep [1] pixW).calls = [] :=
  ⟨rfl, rfl, rfl, rfl⟩

/-! ## C3: the state gate is skipped by x-copy-area! -/

/-- C3 at its failing input (the code contradicts the claim): after the
reachable call sequence open display / create window 42 / map it /
create pixmap 43 / fetch default GC / close display, the display smob is
Closed, yet `x-copy-area!` succeeds and issues a native `XCopyArea` —
the trace ends with a native call after `XCloseDisplay`, with no
StateError, because `scm_x_copy_area_x` performs no `valid_dsp` check. -/
theorem C3_copy_area_after_close_native_call :
    xcaW6.heap[0]? = some (.xdisplay ⟨7, XDISPLAY_STATE_CLOSED, .obj 3⟩) ∧
    (scm_x_copy_area_x (.obj 1) (.obj 2) (.obj 3) (.int 0) (.int 0) (.int 1)
        (.int 1) (.int 0) (.int 0) xcaW6).1 = .ok .unspecified ∧
    (scm_x_copy_area_x (.obj 1) (.obj 2) (.obj 3) (.int 0) (.int 0) (.int 1)
        (.int 1) (.int 0) (.int 0) xcaW6).2.calls =
      [.openDisplay, .createWindow 7, .mapWindow 7 42, .createPixmap 7,
        .closeDisplay 7, .copyArea 7 42 43 101] :=
  ⟨rfl, rfl, rfl⟩

/-! ## C1: teardown ordering -/

/-- C1: for every well-formed world and every order in which the
collector sweeps smobs (including a dependent wrapper and its display in
the same cycle, in either order), the native-call trace after the sweep
never contains an `XDestroyWindow` or `XFreeGC` on a display handle
after the `XCloseDisplay` of that handle; moreover each dependent free
hook checks that its display reference is still a valid display object
and, when it is not, skips the native call entirely, leaving the world
untouched. -/
theorem C1_teardown_ordering (w : World) (order : List Nat) (hInv : Inv w) :
    goodTrace (sweep order w).calls ∧
    (∀ (r : Nat) (win : xwindow_t), w.heap[r]? = some (.xwindow win) →
      isDisplaySmob w win.dsp = false → xwindow_free (.obj r) w = w) ∧
    (∀ (r : Nat) (g : xgc_t), w.heap[r]? = some (.xgc g) →
      isDisplaySmob w g.dsp = false → xgc_free (.obj r) w = w) := by
  refine ⟨(inv_sweep order hInv).good, ?_, ?_⟩
  · intro r win hr hd
    unfold xwindow_free
    simp [hr, hd]
  · intro r g hr hd
    unfold xgc_free
    simp [hr, hd]

/-- Witness for C1 on `sweepW` (Open display, Mapped window, Created gc)
with the hazardous sweep order that reclaims the display first: the
invariant holds initially and the resulting trace is good — the window
and gc hooks find the display cell already swept and skip their native
calls. -/
theorem C1_teardown_ordering_witness :
    Inv sweepW ∧ goodTrace (sweep [0, 1, 2] sweepW).calls ∧
    (sweep [0, 1, 2] sweepW).calls = [.closeDisplay 7] :=
  have hInv : Inv sweepW := Inv_mk_of_checks sweepW rfl (by decide) (by decide)
  ⟨hInv, (C1_teardown_ordering sweepW [0, 1, 2] hInv).1, rfl⟩

end Guile2Xlib
